import Mathlib

/-!
Verification of the user-account model and its creation helpers
(`profiles_api/models.py`): the `UserProfile` record, the
`UserProfileManager` factory operations `create_user` and
`create_superuser`, and the record accessors.

The factory code and accessors are translated directly from the source.
Framework primitives the source calls but whose code is not part of the
repository (email normalization, password hashing, persistence via
`save`) are modelled from the specification, each marked in its doc
comment.
-/

namespace ProfilesApi

/-- The persisted user record, translated from `UserProfile` in
`profiles_api/models.py`: `email` and `name` fields, the credential slot
filled by `set_password` (`none` means no usable credential), and the
flags `is_active` (default true), `is_staff` (default false) and
`is_superuser` (default false, from the permissions mixin). -/
structure UserProfile where
  email : String
  name : String
  password_hash : Option String
  is_active : Bool
  is_staff : Bool
  is_superuser : Bool
deriving Repr, DecidableEq

/-- The database of persisted records. -/
abbrev Db := List UserProfile

/-- Modelled from the spec: the framework `save` primitive persists a
record atomically; `email` is the unique key, so saving replaces the
existing record with the same email and otherwise appends the record. -/
def saveUser : Db → UserProfile → Db
  | [], u => [u]
  | r :: rest, u => if r.email = u.email then u :: rest else r :: saveUser rest u

/-- Splits a character list at the last occurrence of `sep`, returning
the characters before and after it, or `none` when `sep` is absent. -/
def lastSplitAt (sep : Char) : List Char → Option (List Char × List Char)
  | [] => none
  | c :: rest =>
    match lastSplitAt sep rest with
    | some (l, d) => some (c :: l, d)
    | none => if c = sep then some ([], rest) else none

/-- Modelled from the spec: the framework manager's `normalize_email`
(not part of the repository) case-folds the domain segment — the part
after the last `'@'` — to lowercase, leaving the local part as given; an
email without `'@'` is returned unchanged. -/
def normalize_email (email : String) : String :=
  match lastSplitAt '@' email.data with
  | none => email
  | some (l, d) => String.mk l ++ "@" ++ (String.mk d).toLower

/-- Modelled from the spec: the digest step of the external one-way
credential-hashing primitive, abstracted as a length-preserving
character scramble. -/
def scramble (p : String) : String :=
  String.mk (p.data.map (fun c => Char.ofNat ((c.toNat + 3) % 55296)))

/-- Modelled from the spec: the external one-way, salted
credential-hashing primitive; the stored string tags the algorithm and
the per-record salt and carries the digest, never the plaintext. -/
def hashPassword (salt password : String) : String :=
  "pbkdf2_sha256$" ++ salt ++ "$" ++ scramble password

/-- Modelled from the spec: the framework `set_password` stores the
salted hash of a present password; with the password absent the record
is left without a usable credential. -/
def set_password (u : UserProfile) (salt : String) (password : Option String) : UserProfile :=
  match password with
  | none => { u with password_hash := none }
  | some p => { u with password_hash := some (hashPassword salt p) }

/-- Modelled from the spec: password authentication against the stored
credential; a record without a usable credential never authenticates. -/
def UserProfile.check_password (u : UserProfile) (salt raw : String) : Bool :=
  match u.password_hash with
  | none => false
  | some h => h == hashPassword salt raw

/-- The record constructor `self.model(email=..., name=...)`: fields from
the arguments, the remaining fields at their declared defaults and no
credential set yet. -/
def newUserProfile (email name : String) : UserProfile :=
  { email := email, name := name, password_hash := none,
    is_active := true, is_staff := false, is_superuser := false }

/-- `UserProfileManager.create_user`, translated from
`profiles_api/models.py`: reject an empty email, normalize the email,
construct the record, set the password, save it, and return it. The
result pairs the returned record (or the raised error) with the database
after the call. -/
def create_user (db : Db) (email name : String) (password : Option String) (salt : String) :
    Except String UserProfile × Db :=
  if email = "" then (Except.error "Users must have an email address", db)
  else
    let nemail := normalize_email email
    let user := set_password (newUserProfile nemail name) salt password
    (Except.ok user, saveUser db user)

/-- `UserProfileManager.create_superuser`, translated from
`profiles_api/models.py`: delegate to `create_user`, then set
`is_superuser` and `is_staff` and save the update. -/
def create_superuser (db : Db) (email name password salt : String) :
    Except String UserProfile × Db :=
  match create_user db email name (some password) salt with
  | (Except.error e, db2) => (Except.error e, db2)
  | (Except.ok user, db2) =>
    let user2 := { user with is_superuser := true, is_staff := true }
    (Except.ok user2, saveUser db2 user2)

/-- `UserProfile.get_full_name`: retrieve full name for user. -/
def UserProfile.get_full_name (u : UserProfile) : String := u.name

/-- `UserProfile.get_short_name`: retrieve short name of user. -/
def UserProfile.get_short_name (u : UserProfile) : String := u.name

/-- `UserProfile.__str__`: string representation of the user. -/
def UserProfile.str (u : UserProfile) : String := u.email

/-! ## Helper lemmas -/

theorem lastSplitAt_eq_none {sep : Char} : ∀ {cs : List Char}, sep ∉ cs →
    lastSplitAt sep cs = none := by
  intro cs h
  induction cs with
  | nil => rfl
  | cons c rest ih =>
    have hc : c ≠ sep := fun hc => h (hc ▸ List.mem_cons_self c rest)
    have hr : sep ∉ rest := fun hr => h (List.mem_cons_of_mem c hr)
    simp [lastSplitAt, ih hr, hc]

theorem lastSplitAt_append {sep : Char} (l d : List Char) (h : sep ∉ d) :
    lastSplitAt sep (l ++ sep :: d) = some (l, d) := by
  induction l with
  | nil => simp [lastSplitAt, lastSplitAt_eq_none h]
  | cons c rest ih => simp [lastSplitAt, ih]

theorem saveUser_overwrite (db : Db) (v u : UserProfile) (h : u.email = v.email) :
    saveUser (saveUser db v) u = saveUser db u := by
  induction db with
  | nil => simp [saveUser, h]
  | cons r rest ih =>
    by_cases hr : r.email = v.email
    · simp [saveUser, hr, h, hr.trans h.symm]
    · have hru : ¬ r.email = u.email := fun hru => hr (hru.trans h)
      simp [saveUser, hr, hru, ih]

theorem self_mem_saveUser (db : Db) (u : UserProfile) : u ∈ saveUser db u := by
  induction db with
  | nil => simp [saveUser]
  | cons r rest ih =>
    by_cases hr : r.email = u.email
    · simp [saveUser, hr]
    · simp [saveUser, hr, ih]

theorem string_data_append (s t : String) : (s ++ t).data = s.data ++ t.data := by
  cases s; cases t; rfl

theorem scramble_length (p : String) : (scramble p).data.length = p.data.length := by
  simp [scramble]

theorem hashPassword_ne (salt p : String) : hashPassword salt p ≠ p := by
  intro h
  have hlen := congrArg (fun s => s.data.length) h
  simp only [hashPassword, string_data_append, List.length_append, scramble_length,
    List.length_cons, List.length_nil] at hlen
  omega

theorem create_user_ok (db : Db) (e n : String) (p : Option String) (s : String) (h : e ≠ "") :
    create_user db e n p s =
      (Except.ok (set_password (newUserProfile (normalize_email e) n) s p),
        saveUser db (set_password (newUserProfile (normalize_email e) n) s p)) := by
  simp [create_user, h]

/-! ## Claim theorems -/

/-- C1: with an empty email, `create_user` fails with the validation
error, and `create_superuser` propagates the same failure; in both cases
nothing is created: no record is returned and the database is unchanged. -/
theorem empty_email_rejected (db : Db) (n : String) (p : Option String) (ps s : String) :
    create_user db "" n p s = (Except.error "Users must have an email address", db) ∧
    create_superuser db "" n ps s = (Except.error "Users must have an email address", db) := by
  constructor
  · simp [create_user]
  · simp [create_superuser, create_user]

/-- C2: for every non-empty email, `create_user` returns a record whose
`email` is the normalized input email, whose `name` is the input name,
and whose flags are `is_active = true`, `is_staff = false`,
`is_superuser = false`. -/
theorem create_user_result_fields (db : Db) (e n p s : String) (h : e ≠ "") :
    ∃ u : UserProfile, (create_user db e n (some p) s).1 = Except.ok u ∧
      u.email = normalize_email e ∧ u.name = n ∧
      u.is_active = true ∧ u.is_staff = false ∧ u.is_superuser = false := by
  exact ⟨set_password (newUserProfile (normalize_email e) n) s (some p),
    by rw [create_user_ok db e n (some p) s h], rfl, rfl, rfl, rfl, rfl⟩

/-- Witness for C2 at a concrete input. -/
theorem create_user_result_fields_witness :
    ∃ u : UserProfile, (create_user [] "Alice@EXAMPLE.Com" "Alice" (some "pw") "s1").1 =
        Except.ok u ∧
      u.email = normalize_email "Alice@EXAMPLE.Com" ∧ u.name = "Alice" ∧
      u.is_active = true ∧ u.is_staff = false ∧ u.is_superuser = false :=
  create_user_result_fields [] "Alice@EXAMPLE.Com" "Alice" "pw" "s1" (by decide)

/-- C3: `create_superuser` delegates to `create_user` and then sets the
two privilege flags: the returned record is the `create_user` record
with `is_staff = true` and `is_superuser = true`, so every record it
produces has both flags set. -/
theorem create_superuser_privileged (db : Db) (e n p s : String) (h : e ≠ "") :
    ∃ v u : UserProfile, (create_user db e n (some p) s).1 = Except.ok v ∧
      (create_superuser db e n p s).1 = Except.ok u ∧
      u = { v with is_staff := true, is_superuser := true } ∧
      u.is_staff = true ∧ u.is_superuser = true := by
  refine ⟨set_password (newUserProfile (normalize_email e) n) s (some p),
    { set_password (newUserProfile (normalize_email e) n) s (some p) with
        is_staff := true, is_superuser := true },
    by rw [create_user_ok db e n (some p) s h], ?_, rfl, rfl, rfl⟩
  simp [create_superuser, create_user_ok db e n (some p) s h]

/-- Witness for C3 at a concrete input. -/
theorem create_superuser_privileged_witness :
    ∃ v u : UserProfile, (create_user [] "root@EX.org" "Root" (some "pw") "s2").1 =
        Except.ok v ∧
      (create_superuser [] "root@EX.org" "Root" "pw" "s2").1 = Except.ok u ∧
      u = { v with is_staff := true, is_superuser := true } ∧
      u.is_staff = true ∧ u.is_superuser = true :=
  create_superuser_privileged [] "root@EX.org" "Root" "pw" "s2" (by decide)

/-- C8: `get_full_name` and `get_short_name` both return exactly the
stored `name`; as plain functions of the record they read it without
modifying it. -/
theorem accessors_return_name (u : UserProfile) :
    u.get_full_name = u.name ∧ u.get_short_name = u.name :=
  ⟨rfl, rfl⟩

/-- C9: the string representation of a record equals its `email` field. -/
theorem str_equals_email (u : UserProfile) : u.str = u.email := rfl

/-- C10: `create_user` fails exactly when the email is empty: emptiness
of the email is the only validation performed, so any non-empty email —
with or without an `'@'` — together with any name (empty included) and
any optional password (absent included) is accepted. -/
theorem error_iff_email_empty (db : Db) (e n : String) (p : Option String) (s : String) :
    (∃ msg, (create_user db e n p s).1 = Except.error msg) ↔ e = "" := by
  by_cases h : e = ""
  · subst h; simp [create_user]
  · simp [create_user_ok db e n p s h, h]

/-- C4: for an email written as a local part, an `'@'`, and a domain
segment containing no further `'@'`, normalization case-folds only the
domain segment to lowercase, leaves the local part as given, and
`create_user` stores exactly that normalized email. -/
theorem create_user_casefolds_domain (db : Db) (n : String) (p : Option String) (s : String)
    (l d : List Char) (h : '@' ∉ d) :
    normalize_email (String.mk (l ++ '@' :: d)) =
      String.mk l ++ "@" ++ (String.mk d).toLower ∧
    ∃ u : UserProfile, (create_user db (String.mk (l ++ '@' :: d)) n p s).1 = Except.ok u ∧
      u.email = String.mk l ++ "@" ++ (String.mk d).toLower := by
  have hnorm : normalize_email (String.mk (l ++ '@' :: d)) =
      String.mk l ++ "@" ++ (String.mk d).toLower := by
    simp [normalize_email, lastSplitAt_append l d h]
  have he : String.mk (l ++ '@' :: d) ≠ "" := by
    intro hs
    have hd := congrArg String.data hs
    simp at hd
  refine ⟨hnorm, set_password (newUserProfile (normalize_email (String.mk (l ++ '@' :: d))) n)
    s p, by rw [create_user_ok _ _ _ _ _ he], ?_⟩
  cases p <;> simp [set_password, newUserProfile, hnorm]

/-- Witness for C4 at a concrete input. -/
theorem create_user_casefolds_domain_witness :
    normalize_email (String.mk (['J', 'o'] ++ '@' :: ['E', 'X', '.', 'o', 'R', 'g'])) =
      String.mk ['J', 'o'] ++ "@" ++ (String.mk ['E', 'X', '.', 'o', 'R', 'g']).toLower ∧
    ∃ u : UserProfile,
      (create_user [] (String.mk (['J', 'o'] ++ '@' :: ['E', 'X', '.', 'o', 'R', 'g']))
        "Jo" (some "pw") "s3").1 = Except.ok u ∧
      u.email = String.mk ['J', 'o'] ++ "@" ++ (String.mk ['E', 'X', '.', 'o', 'R', 'g']).toLower :=
  create_user_casefolds_domain [] "Jo" (some "pw") "s3" ['J', 'o'] ['E', 'X', '.', 'o', 'R', 'g']
    (by decide)

/-- C5: user creation is atomic: the database after a call to
`create_user` or `create_superuser` is the input database when the call
fails, and the input database with exactly the returned record saved
when it succeeds — no partially written record remains in either case. -/
theorem creation_atomic (db : Db) (e n : String) (p : Option String) (ps s : String) :
    (create_user db e n p s).2 =
      (match (create_user db e n p s).1 with
        | Except.error _ => db
        | Except.ok u => saveUser db u) ∧
    (create_superuser db e n ps s).2 =
      (match (create_superuser db e n ps s).1 with
        | Except.error _ => db
        | Except.ok u => saveUser db u) := by
  by_cases h : e = ""
  · subst h
    constructor <;> simp [create_user, create_superuser]
  · constructor
    · rw [create_user_ok db e n p s h]
    · simp only [create_superuser, create_user_ok db e n (some ps) s h]
      exact saveUser_overwrite db _ _ rfl

/-- C6: the stored credential of a record created by `create_user` or
`create_superuser` is the salted hash of the supplied password, and that
hash is never equal to the plaintext password. -/
theorem credential_never_plaintext (db : Db) (e n p s : String) (h : e ≠ "") :
    ∃ u us : UserProfile,
      (create_user db e n (some p) s).1 = Except.ok u ∧
      u.password_hash = some (hashPassword s p) ∧
      (create_superuser db e n p s).1 = Except.ok us ∧
      us.password_hash = some (hashPassword s p) ∧
      hashPassword s p ≠ p := by
  refine ⟨set_password (newUserProfile (normalize_email e) n) s (some p),
    { set_password (newUserProfile (normalize_email e) n) s (some p) with
        is_staff := true, is_superuser := true },
    by rw [create_user_ok db e n (some p) s h], rfl, ?_, rfl, hashPassword_ne s p⟩
  simp [create_superuser, create_user_ok db e n (some p) s h]

/-- Witness for C6 at a concrete input. -/
theorem credential_never_plaintext_witness :
    ∃ u us : UserProfile,
      (create_user [] "a@b.c" "A" (some "secret") "s4").1 = Except.ok u ∧
      u.password_hash = some (hashPassword "s4" "secret") ∧
      (create_superuser [] "a@b.c" "A" "secret" "s4").1 = Except.ok us ∧
      us.password_hash = some (hashPassword "s4" "secret") ∧
      hashPassword "s4" "secret" ≠ "secret" :=
  credential_never_plaintext [] "a@b.c" "A" "secret" "s4" (by decide)

/-- C7: when `create_user` is called with the password absent, the
record is still persisted into the database, but it carries no usable
credential and password authentication fails for every candidate
password. -/
theorem absent_password_no_credential (db : Db) (e n s : String) (h : e ≠ "") :
    ∃ (u : UserProfile) (db2 : Db),
      create_user db e n none s = (Except.ok u, db2) ∧
      u ∈ db2 ∧ u.password_hash = none ∧
      ∀ s2 raw : String, u.check_password s2 raw = false := by
  refine ⟨set_password (newUserProfile (normalize_email e) n) s none, _,
    create_user_ok db e n none s h, self_mem_saveUser db _, rfl, fun s2 raw => rfl⟩

/-- Witness for C7 at a concrete input. -/
theorem absent_password_no_credential_witness :
    ∃ (u : UserProfile) (db2 : Db),
      create_user [] "b@c.d" "B" none "s5" = (Except.ok u, db2) ∧
      u ∈ db2 ∧ u.password_hash = none ∧
      ∀ s2 raw : String, u.check_password s2 raw = false :=
  absent_password_no_credential [] "b@c.d" "B" "s5" (by decide)

end ProfilesApi
